import Mathlib

/-!
Shallow embedding of the context-assembly core of the repository:
`cache_utils.py`, `metadata_queries.py`, `metadata_extractor.py`,
`graphdb_utils.py` and `rag_pipeline.py`.

Python scalar values are modelled by the inductive `PyVal`; dictionaries and
dataframe rows (`df.to_dict(orient="records")` elements) by insertion-ordered
association lists.  External effects (the Snowflake driver, the Chroma vector
store, the OpenAI client, `hashlib.sha256`, `json.loads`) are modelled as
explicit function parameters ("oracles"); everything computed by the
repository's own code is translated directly from the source.
-/

/-- Python scalar values as they occur in warehouse result rows and in the
snapshot.  `vFloat` and `vDecimal` carry the exact rational the Python object
denotes (IEEE rounding of `float(Decimal)` is abstracted away: no claim
inspects the numeric payload of a converted value).  `vDate`/`vDatetime`
carry the calendar fields used by `isoformat()`. -/
inductive PyVal where
  | vNone : PyVal
  | vBool : Bool → PyVal
  | vInt : Int → PyVal
  | vFloat : Rat → PyVal
  | vDecimal : Rat → PyVal
  | vDate : Nat → Nat → Nat → PyVal
  | vDatetime : Nat → Nat → Nat → Nat → Nat → Nat → PyVal
  | vStr : String → PyVal
deriving DecidableEq, Repr

/-- Python dict with string keys, as an insertion-ordered association list
(first binding wins on lookup, as in a dict no key occurs twice). -/
abbrev Record := List (String × PyVal)

/-- Python truthiness (`bool(v)`) for the scalar values of the model. -/
def pyTruthy : PyVal → Bool
  | .vNone => false
  | .vBool b => b
  | .vInt n => n ≠ 0
  | .vFloat q => q ≠ 0
  | .vDecimal q => q ≠ 0
  | .vDate _ _ _ => true
  | .vDatetime _ _ _ _ _ _ => true
  | .vStr s => s ≠ ""

/-- Python `a or b`: `a` when truthy, otherwise `b`. -/
def pyOr (a b : PyVal) : PyVal := if pyTruthy a then a else b

/-- Lookup in the association-list model of a dict (the first binding for
the key, if any). -/
def alookup {α : Type} (d : List (String × α)) (k : String) : Option α :=
  match d with
  | [] => none
  | (k1, v) :: t => if k1 = k then some v else alookup t k

/-- Python `row.get(key)`: the stored value when the key is present (even if
that value is `None`), and `None` when absent. -/
def pyGet (r : Record) (k : String) : PyVal := (alookup r k).getD .vNone

/-- Python `row.get(key, default)`. -/
def pyGetD (r : Record) (k : String) (d : PyVal) : PyVal := (alookup r k).getD d

/-- ASCII upper-casing of one character (`str.upper`; the metadata field
names this is applied to are ASCII). -/
def upChar (c : Char) : Char :=
  if 97 ≤ c.toNat ∧ c.toNat ≤ 122 then Char.ofNat (c.toNat - 32) else c

/-- ASCII lower-casing of one character (`str.lower`). -/
def lowChar (c : Char) : Char :=
  if 65 ≤ c.toNat ∧ c.toNat ≤ 90 then Char.ofNat (c.toNat + 32) else c

/-- Python `s.upper()` (ASCII range). -/
def pyUpper (s : String) : String := ⟨s.data.map upChar⟩

/-- Python `s.lower()` (ASCII range). -/
def pyLower (s : String) : String := ⟨s.data.map lowChar⟩

/-- Python substring test `needle in hay`. -/
def strContains (hay needle : String) : Bool := decide (needle.data <:+: hay.data)

/-- Left-zero-padded decimal rendering, `width` 2, used by `isoformat`. -/
def pad2 (n : Nat) : String := if n < 10 then "0" ++ toString n else toString n

/-- Left-zero-padded decimal rendering, `width` 4, used by `isoformat`. -/
def pad4 (n : Nat) : String :=
  if n < 10 then "000" ++ toString n
  else if n < 100 then "00" ++ toString n
  else if n < 1000 then "0" ++ toString n
  else toString n

/-- Python `date.isoformat()`. -/
def isoDate (y m d : Nat) : String := pad4 y ++ "-" ++ pad2 m ++ "-" ++ pad2 d

/-- Python `datetime.isoformat()` (the sub-second part is abstracted away;
no claim inspects the rendered text of a converted timestamp). -/
def isoDatetime (y m d hh mm ss : Nat) : String :=
  isoDate y m d ++ "T" ++ pad2 hh ++ ":" ++ pad2 mm ++ ":" ++ pad2 ss

/-- Python `str(v)` as used by f-string interpolation.  In every code path
this is applied to, the value is a string from a metadata row; the renderings
of the other constructors are deterministic stand-ins for CPython's `repr`. -/
def pyStr : PyVal → String
  | .vNone => "None"
  | .vBool b => if b then "True" else "False"
  | .vInt n => toString n
  | .vFloat q => toString q.num ++ "/" ++ toString q.den
  | .vDecimal q => toString q.num ++ "/" ++ toString q.den
  | .vDate y m d => isoDate y m d
  | .vDatetime y m d hh mm ss => isoDatetime y m d hh mm ss
  | .vStr s => s

/-- Python dict assignment `d[k] = v`: overwrite in place when the key is
present, append otherwise. -/
def dictSet {α : Type} (d : List (String × α)) (k : String) (v : α) : List (String × α) :=
  match d with
  | [] => [(k, v)]
  | (k', v') :: t => if k' = k then (k, v) :: t else (k', v') :: dictSet t k v

/-- Python `old.update(new)` / `{**old, **new}`: every binding of `new` is
assigned into `old` in order. -/
def dictUpdate {α : Type} (old upd : List (String × α)) : List (String × α) :=
  upd.foldl (fun d kv => dictSet d kv.1 kv.2) old

/-- Dual-casing field lookup `row.get(key, row.get(key.upper()))`, defined
identically in `graphdb_utils.py` and `metadata_extractor.py` (`_get`). -/
def getDual (row : Record) (key : String) : PyVal :=
  match alookup row key with
  | some v => v
  | none => pyGetD row (pyUpper key) .vNone

/-! ## cache_utils.py

`_hash_key` applies `hashlib.sha256(...).hexdigest()`; the digest itself is
external, so it is passed in as a function parameter `hash`.  The disk cache
is modelled as a partial map from (hashed) keys to values; the `expire`
argument is kept in the signature but time-based expiry is abstracted as
absence from the map. -/

/-- The raw cache key `"|".join(key_parts)` computed by `cached_call`. -/
def key_raw (key_parts : List String) : String := String.intercalate "|" key_parts

/-- The derived cache key `_hash_key("|".join(key_parts))` for an abstract
digest function `hash`. -/
def derived_key (hash : String → String) (key_parts : List String) : String :=
  hash (key_raw key_parts)

/-- The body of `cached_call`: look the hashed key up, on a miss run `fn`
and store its value.  Returns the value together with the updated cache. -/
def cached_call {α : Type} (hash : String → String) (cache : String → Option α)
    (key_parts : List String) (fn : Unit → α) (_expire : Nat) :
    α × (String → Option α) :=
  let key := derived_key hash key_parts
  match cache key with
  | some v => (v, cache)
  | none =>
    let v := fn ()
    (v, fun k => if k = key then some v else cache k)

/-! ## metadata_extractor.py: JSON-safety conversion -/

/-- Translation of `_json_safe`: `Decimal` becomes `float`, `datetime`/`date`
become their `isoformat()` string, everything else passes through. -/
def json_safe : PyVal → PyVal
  | .vDecimal q => .vFloat q
  | .vDatetime y m d hh mm ss => .vStr (isoDatetime y m d hh mm ss)
  | .vDate y m d => .vStr (isoDate y m d)
  | v => v

/-- Translation of `_json_safe_records`: apply `_json_safe` to every value of
every row, keeping keys and order. -/
def json_safe_records (records : List Record) : List Record :=
  records.map (fun r => r.map (fun kv => (kv.1, json_safe kv.2)))

/-- A value is JSON-safe when it is not a raw decimal or temporal object
(the classes `json.dump` would reject). -/
def isJsonSafe : PyVal → Bool
  | .vDecimal _ => false
  | .vDate _ _ _ => false
  | .vDatetime _ _ _ _ _ _ => false
  | _ => true

/-! ## metadata_queries.py

The SQL texts are carried verbatim (whitespace condensed to single spaces,
single quotes written with an escape); only their pairwise distinctness
within a battery and the key set matter to the properties below. -/

/-- SQL text of the database-scoped `tables` sub-query. -/
def sql_tables : String :=
  "SELECT t.table_catalog AS database_name, t.table_schema AS schema_name, t.table_name, t.table_type, t.row_count, t.created, t.last_altered, d.comment AS table_description, CASE WHEN LOWER(t.table_name) LIKE \x27%fact%\x27 THEN \x27fact\x27 WHEN LOWER(t.table_name) LIKE \x27%dim%\x27 THEN \x27dimension\x27 ELSE NULL END AS table_category FROM information_schema.tables t LEFT JOIN information_schema.tables d ON d.table_catalog = t.table_catalog AND d.table_schema = t.table_schema AND d.table_name = t.table_name WHERE t.table_type IN (\x27BASE TABLE\x27,\x27VIEW\x27) ORDER BY t.table_schema, t.table_name;"

/-- SQL text of the database-scoped `views` sub-query. -/
def sql_views : String :=
  "SELECT table_catalog AS database_name, table_schema AS schema_name, table_name, created, last_altered FROM information_schema.views ORDER BY table_schema, table_name;"

/-- SQL text of the database-scoped `columns` sub-query. -/
def sql_columns : String :=
  "SELECT c.table_catalog AS database_name, c.table_schema AS schema_name, c.table_name, c.column_name, c.ordinal_position, c.data_type, c.character_maximum_length, c.numeric_precision, c.numeric_scale, c.is_nullable, col.comment AS column_description FROM information_schema.columns c LEFT JOIN information_schema.columns col ON col.table_catalog=c.table_catalog AND col.table_schema=c.table_schema AND col.table_name=c.table_name AND col.column_name=c.column_name ORDER BY c.table_schema, c.table_name, c.ordinal_position;"

/-- SQL text of the database-scoped `foreign_keys` sub-query. -/
def sql_foreign_keys : String :=
  "SELECT kcu.table_catalog AS database_name, kcu.table_schema AS schema_name, kcu.table_name, kcu.column_name, rc.unique_constraint_catalog AS referenced_database, rc.unique_constraint_schema AS referenced_schema, ccu.table_name AS referenced_table, ccu.column_name AS referenced_column FROM information_schema.referential_constraints rc JOIN information_schema.key_column_usage kcu ON rc.constraint_catalog=kcu.constraint_catalog AND rc.constraint_schema=kcu.constraint_schema AND rc.constraint_name=kcu.constraint_name JOIN information_schema.constraint_column_usage ccu ON rc.unique_constraint_catalog=ccu.constraint_catalog AND rc.unique_constraint_schema=ccu.constraint_schema AND rc.unique_constraint_name=ccu.constraint_name"

/-- SQL text of the database-scoped `indexes` sub-query. -/
def sql_indexes : String :=
  "SELECT database_name, schema_name, table_name, index_name, column_name FROM snowflake.account_usage.table_indexes WHERE deleted IS NULL"

/-- SQL text of the database-scoped `query_history` sub-query. -/
def sql_query_history : String :=
  "SELECT query_text, database_name, schema_name, execution_status, error_code, start_time, end_time, total_elapsed_time FROM table(information_schema.query_history()) ORDER BY start_time DESC LIMIT 500;"

/-- Translation of the database-scoped query battery `QUERIES` (a dict,
kept as an insertion-ordered association list). -/
def QUERIES : List (String × String) :=
  [("tables", sql_tables), ("views", sql_views), ("columns", sql_columns), ("foreign_keys", sql_foreign_keys), ("indexes", sql_indexes), ("query_history", sql_query_history)]

/-- SQL text of the account-level `tables` sub-query. -/
def sql_tables_acc : String :=
  "SELECT table_catalog AS database_name, table_schema AS schema_name, table_name, table_type, row_count, created, last_altered, NULL AS table_description, CASE WHEN LOWER(table_name) LIKE \x27%fact%\x27 THEN \x27fact\x27 WHEN LOWER(table_name) LIKE \x27%dim%\x27 THEN \x27dimension\x27 ELSE NULL END AS table_category FROM snowflake.account_usage.tables WHERE deleted IS NULL ORDER BY database_name, schema_name, table_name;"

/-- SQL text of the account-level `views` sub-query. -/
def sql_views_acc : String :=
  "SELECT table_catalog AS database_name, table_schema AS schema_name, table_name, created, last_altered FROM snowflake.account_usage.views WHERE deleted IS NULL ORDER BY database_name, schema_name, table_name;"

/-- SQL text of the account-level `columns` sub-query. -/
def sql_columns_acc : String :=
  "SELECT table_catalog AS database_name, table_schema AS schema_name, table_name, column_name, ordinal_position, data_type, character_maximum_length, numeric_precision, numeric_scale, is_nullable, NULL AS column_description FROM snowflake.account_usage.columns WHERE deleted IS NULL ORDER BY schema_name, table_name, ordinal_position;"

/-- SQL text of the account-level `foreign_keys` sub-query. -/
def sql_foreign_keys_acc : String :=
  "SELECT database_name AS database_name, schema_name AS schema_name, table_name AS table_name, column_name AS column_name, referenced_database AS referenced_database, referenced_schema AS referenced_schema, referenced_table_name AS referenced_table, referenced_column_name AS referenced_column FROM snowflake.account_usage.referential_constraints WHERE deleted IS NULL"

/-- SQL text of the account-level `indexes` sub-query. -/
def sql_indexes_acc : String :=
  "SELECT database_name, schema_name, table_name, index_name, column_name FROM snowflake.account_usage.table_indexes WHERE deleted IS NULL"

/-- SQL text of the account-level `query_history` sub-query. -/
def sql_query_history_acc : String :=
  "SELECT query_text, database_name, schema_name, execution_status, error_code, start_time, end_time, total_elapsed_time FROM snowflake.account_usage.query_history ORDER BY start_time DESC LIMIT 500;"

/-- Translation of the account-level fallback battery `QUERIES_ACCOUNT`. -/
def QUERIES_ACCOUNT : List (String × String) :=
  [("tables", sql_tables_acc), ("views", sql_views_acc), ("columns", sql_columns_acc), ("foreign_keys", sql_foreign_keys_acc), ("indexes", sql_indexes_acc), ("query_history", sql_query_history_acc)]

/-- Translation of `quote_ident` (`startswith` of a one-character prefix is a
first-character test). -/
def quote_ident (name : String) : String :=
  if name ≠ "" ∧ ¬ (name.data.head? = some '"') then "\"" ++ name ++ "\"" else name

/-- Translation of `fq_table`; its arguments arrive as Python values from the
grouping key (possibly `None`), interpolated via `str`. -/
def fq_table (database schema table : PyVal) : String :=
  if pyTruthy database && pyTruthy schema then
    quote_ident (pyStr database) ++ "." ++ quote_ident (pyStr schema) ++ "." ++ quote_ident (pyStr table)
  else if pyTruthy schema then
    quote_ident (pyStr schema) ++ "." ++ quote_ident (pyStr table)
  else quote_ident (pyStr table)

/-- Translation of `min_max_distinct_for_column`: the per-column statistics
query, dispatched on the declared type class.  (The textual branch and the
final default produce the same projection, as in the source.) -/
def min_max_distinct_for_column (database schema table column data_type : PyVal) : String :=
  let fully_qualified := fq_table database schema table
  let col := quote_ident (pyStr column)
  let dt := pyUpper (pyStr data_type)
  if dt ∈ ["NUMBER", "DECIMAL", "INT", "INTEGER", "BIGINT", "FLOAT", "DOUBLE"] then
    "SELECT MIN(" ++ col ++ ") AS min_value, MAX(" ++ col ++ ") AS max_value, COUNT(DISTINCT " ++ col ++ ") AS distinct_count FROM " ++ fully_qualified ++ ";"
  else if dt ∈ ["DATE", "TIMESTAMP", "TIMESTAMP_NTZ", "TIMESTAMP_LTZ", "TIMESTAMP_TZ"] then
    "SELECT MIN(" ++ col ++ ") AS min_date, MAX(" ++ col ++ ") AS max_date, COUNT(DISTINCT " ++ col ++ ") AS distinct_count FROM " ++ fully_qualified ++ ";"
  else if dt ∈ ["TEXT", "VARCHAR", "STRING"] then
    "SELECT COUNT(DISTINCT " ++ col ++ ") AS distinct_count FROM " ++ fully_qualified ++ ";"
  else
    "SELECT COUNT(DISTINCT " ++ col ++ ") AS distinct_count FROM " ++ fully_qualified ++ ";"

/-! ## metadata_extractor.py: extraction

`run_query` (driver call with bounded retries) is an oracle
`String → Option (List Record)`: `some rows` is a dataframe converted by
`to_dict(orient="records")`, `none` is an exception after the retries are
exhausted, which the extractor turns into an empty dataframe. -/

/-- Outcome of `run_query` for a given SQL text. -/
abbrev Oracle := String → Option (List Record)

/-- The initial `results` dict of `extract_metadata`. -/
def init_results : List (String × List Record) :=
  [("tables", []), ("views", []), ("columns", []), ("query_history", [])]

/-- The primary loop of `extract_metadata`: run every battery sub-query,
mapping a failure to an empty result list, JSON-safe the rows, and assign
them under the sub-query's key. -/
def run_battery (fetch : Oracle) (queries : List (String × String)) :
    List (String × List Record) :=
  queries.foldl
    (fun res kv => dictSet res kv.1 (json_safe_records ((fetch kv.2).getD [])))
    init_results

/-- Battery selection: `QUERIES if snowflake_config.database else QUERIES_ACCOUNT`. -/
def selected_queries (databaseConfigured : Bool) : List (String × String) :=
  if databaseConfigured then QUERIES else QUERIES_ACCOUNT

/-- The primary phase of `extract_metadata` (tables/views/columns/…/history). -/
def extract_primary (databaseConfigured : Bool) (fetch : Oracle) :
    List (String × List Record) :=
  run_battery fetch (selected_queries databaseConfigured)

/-- The `c.get("database_name") or c.get("DATABASE_NAME")` pattern of the
stats phase, for the database field. -/
def col_db (c : Record) : PyVal := pyOr (pyGet c "database_name") (pyGet c "DATABASE_NAME")

/-- Dual-casing read of the schema field, by truthiness as in the source. -/
def col_schema (c : Record) : PyVal := pyOr (pyGet c "schema_name") (pyGet c "SCHEMA_NAME")

/-- Dual-casing read of the table field. -/
def col_table (c : Record) : PyVal := pyOr (pyGet c "table_name") (pyGet c "TABLE_NAME")

/-- Dual-casing read of the column-name field. -/
def col_name_of (c : Record) : PyVal := pyOr (pyGet c "column_name") (pyGet c "COLUMN_NAME")

/-- Dual-casing read of the data-type field. -/
def col_dtype_of (c : Record) : PyVal := pyOr (pyGet c "data_type") (pyGet c "DATA_TYPE")

/-- Python `per_table.setdefault(tkey, []).append(c)` on an insertion-ordered
dict from table keys to their column rows. -/
def insertGroup (gs : List ((PyVal × PyVal × PyVal) × List Record))
    (k : PyVal × PyVal × PyVal) (c : Record) :
    List ((PyVal × PyVal × PyVal) × List Record) :=
  match gs with
  | [] => [(k, [c])]
  | (k', cs) :: t => if k' = k then (k', cs ++ [c]) :: t else (k', cs) :: insertGroup t k c

/-- The grouping loop of the stats phase: group column rows by
(database, schema, table), skipping rows whose table field is falsy. -/
def per_table (columns : List Record) : List ((PyVal × PyVal × PyVal) × List Record) :=
  columns.foldl
    (fun gs c =>
      if pyTruthy (col_table c) then insertGroup gs (col_db c, col_schema c, col_table c) c
      else gs)
    []

/-- One appended statistics row: the base identification fields merged with
the (JSON-safed) first row of the statistics query's result; a failed or
empty query contributes no extra fields. -/
def stat_row (statFetch : Oracle) (tkey : PyVal × PyVal × PyVal) (col dtype : PyVal) : Record :=
  let sql := min_max_distinct_for_column tkey.1 tkey.2.1 tkey.2.2 col dtype
  let row : Record :=
    match statFetch sql with
    | none => []
    | some [] => []
    | some (r :: _) => r
  let row := row.map (fun kv => (kv.1, json_safe kv.2))
  dictUpdate
    [("database_name", tkey.1), ("schema_name", tkey.2.1), ("table_name", tkey.2.2),
     ("column_name", col), ("data_type", dtype)]
    row

/-- The statistics phase: for each table group, sample the first 5 column
rows, skip rows with a falsy column name or data type, and issue one
statistics query per sampled column.  Returns the appended stat rows
together with the list of SQL texts actually issued. -/
def stats_phase (statFetch : Oracle) (columns : List Record) :
    List Record × List String :=
  (per_table columns).foldl
    (fun acc g =>
      (g.2.take 5).foldl
        (fun acc c =>
          let col := col_name_of c
          let dtype := col_dtype_of c
          if pyTruthy col && pyTruthy dtype then
            (acc.1 ++ [stat_row statFetch g.1 col dtype],
             acc.2 ++ [min_max_distinct_for_column g.1.1 g.1.2.1 g.1.2.2 col dtype])
          else acc)
        acc)
    ([], [])

/-- The snapshot assembled by `extract_metadata` and written to
`metadata_latest.json`: the primary results with the derived
`column_stats` entry assigned. -/
def extract_metadata_model (databaseConfigured : Bool) (fetch statFetch : Oracle) :
    List (String × List Record) :=
  let results := extract_primary databaseConfigured fetch
  let columns := (alookup results "columns").getD []
  dictSet results "column_stats" (stats_phase statFetch columns).1

/-! ## graphdb_utils.py

The in-memory `networkx.DiGraph` held by a `GraphDB` instance: nodes and
edges as insertion-ordered association lists with attribute bags.  The
optional Neo4j mirror and the JSON file round-trip are external I/O and not
modelled.  Node identities are the strings the source uses as dict keys. -/

/-- The directed property graph of a `GraphDB` instance. -/
structure GraphDB where
  nodes : List (String × Record)
  edges : List (String × String × Record)
deriving DecidableEq

/-- A fresh, empty graph (`self.g.clear()` / a new `nx.DiGraph()`). -/
def GraphDB.emptyGraph : GraphDB := ⟨[], []⟩

/-- Semantics of `networkx` `add_node`: update the attribute bag of an
existing node in place, append a new node otherwise. -/
def GraphDB.add_node (g : GraphDB) (id : String) (attrs : Record) : GraphDB :=
  if (alookup g.nodes id).isSome then
    { g with nodes := g.nodes.map (fun n => if n.1 = id then (n.1, dictUpdate n.2 attrs) else n) }
  else { g with nodes := g.nodes ++ [(id, attrs)] }

/-- Semantics of `networkx` `add_edge` for an endpoint: a missing endpoint
node is created with an empty attribute bag. -/
def GraphDB.ensure_node (g : GraphDB) (id : String) : GraphDB :=
  if (alookup g.nodes id).isSome then g else { g with nodes := g.nodes ++ [(id, [])] }

/-- Semantics of `networkx` `add_edge`: ensure both endpoints, then update an
existing `(u, v)` edge's attributes or append a new edge. -/
def GraphDB.add_edge (g : GraphDB) (u v : String) (attrs : Record) : GraphDB :=
  let g := (g.ensure_node u).ensure_node v
  if g.edges.any (fun e => e.1 = u && e.2.1 = v) then
    { g with
      edges := g.edges.map (fun e =>
        if e.1 = u && e.2.1 = v then (e.1, e.2.1, dictUpdate e.2.2 attrs) else e) }
  else { g with edges := g.edges ++ [(u, v, attrs)] }

/-- Translation of `GraphDB.build_from_metadata`: clear the graph, then add
Database/Schema/Table nodes and `CONTAINS` edges for each table row and
Column nodes and `HAS_COLUMN` edges for each column row, skipping rows with
a falsy identifying field. -/
def GraphDB.build_from_metadata (_g : GraphDB) (tables columns : List Record) : GraphDB :=
  let g := GraphDB.emptyGraph
  let g := tables.foldl
    (fun g t =>
      let db := getDual t "database_name"
      let schema := getDual t "schema_name"
      let table := getDual t "table_name"
      if pyTruthy db && pyTruthy schema && pyTruthy table then
        let dbS := pyStr db
        let schemaId := dbS ++ "." ++ pyStr schema
        let table_id := schemaId ++ "." ++ pyStr table
        ((((g.add_node dbS [("label", .vStr "Database"), ("name", db)]).add_node
            schemaId [("label", .vStr "Schema"), ("name", schema)]).add_node
            table_id [("label", .vStr "Table"), ("name", table), ("row_count", getDual t "row_count")]).add_edge
            dbS schemaId [("type", .vStr "CONTAINS")]).add_edge
            schemaId table_id [("type", .vStr "CONTAINS")]
      else g)
    g
  columns.foldl
    (fun g c =>
      let db := getDual c "database_name"
      let schema := getDual c "schema_name"
      let table := getDual c "table_name"
      let column := getDual c "column_name"
      let data_type := getDual c "data_type"
      if pyTruthy db && pyTruthy schema && pyTruthy table && pyTruthy column then
        let table_id := pyStr db ++ "." ++ pyStr schema ++ "." ++ pyStr table
        let col_id := table_id ++ "." ++ pyStr column
        (g.add_node col_id [("label", .vStr "Column"), ("name", column), ("data_type", data_type)]).add_edge
          table_id col_id [("type", .vStr "HAS_COLUMN")]
      else g)
    g

/-- The loop body of `GraphDB.search`, with the source's in-loop cutoff:
after each node, stop as soon as `max_results` matches were collected. -/
def GraphDB.search_go (keyword_lower : String) (max_results : Nat) :
    List (String × Record) → List (String × Record) → List (String × Record)
  | [], ms => ms
  | (node_id, data) :: rest, ms =>
    let name := pyLower (pyStr (pyGetD data "name" (.vStr "")))
    let ms :=
      if strContains name keyword_lower || strContains (pyLower node_id) keyword_lower then
        ms ++ [(node_id, data)]
      else ms
    if max_results ≤ ms.length then ms
    else GraphDB.search_go keyword_lower max_results rest ms

/-- Translation of `GraphDB.search`: case-insensitive substring match of the
keyword against each node's `name` property and its identity. -/
def GraphDB.search (g : GraphDB) (keyword : String) (max_results : Nat) :
    List (String × Record) :=
  GraphDB.search_go (pyLower keyword) max_results g.nodes []

/-! ## rag_pipeline.py

The Chroma collection and the OpenAI client are external: vector retrieval
is an oracle `String → Nat → List String`, the generation call an oracle
`String → String → String`, `json.loads` an oracle
`String → Option Record` (`none` = the text does not parse as JSON). -/

/-- Deterministic stand-in for CPython's rendering of the props dict inside
the `f"Graph match: {node_id} props={props}"` text (its exact shape never
affects a property below). -/
def fmtProps (props : Record) : String :=
  String.intercalate ", " (props.map (fun kv => kv.1 ++ "=" ++ pyStr kv.2))

/-- Translation of `retrieve_from_graph` over an already-loaded local graph. -/
def retrieve_from_graph (g : GraphDB) (keyword : String) (max_results : Nat) : List String :=
  (g.search keyword max_results).map
    (fun m => "Graph match: " ++ m.1 ++ " props=" ++ fmtProps m.2)

/-- Translation of `pick_context`: vector results when at least 3, otherwise
the graph fallback when non-empty, otherwise the original vector results. -/
def pick_context (vecQuery : String → Nat → List String) (g : GraphDB)
    (top_k : Nat) (question : String) : List String :=
  let vctx := vecQuery question top_k
  if 3 ≤ vctx.length then vctx
  else
    let gctx := retrieve_from_graph g question top_k
    if gctx ≠ [] then gctx else vctx

/-- Translation of `build_system_prompt`. -/
def build_system_prompt : String :=
  "You are an expert data analyst working with a Snowflake data warehouse. Given database metadata context and a business question, produce: 1) a concise business insight in simple English, 2) one Snowflake SQL query to answer it, 3) suggested chart type. Only generate valid Snowflake SQL; NEVER drop or modify data."

/-- Translation of `build_user_prompt`. -/
def build_user_prompt (question : String) (context_snippets : List String) : String :=
  let context_text := String.intercalate "\n\n" (context_snippets.take 12)
  "METADATA CONTEXT:\n" ++ context_text ++ "\n\nQUESTION:\n" ++ question ++
    "\n\nRespond in JSON with keys: insight, sql, chart_type (one of line, bar, area, scatter, table)."

/-- The value returned by `generate_sql_and_insight`: the parsed (or
degraded) response dict, plus the `"context"` entry the merge appends. -/
structure SynthResult where
  data : Record
  context : List String
deriving DecidableEq

/-- The degraded dict built by the `except` branch of
`generate_sql_and_insight` on a JSON parse failure. -/
def degraded_result (response : String) : Record :=
  [("insight", .vStr response), ("sql", .vNone), ("chart_type", .vStr "table")]

/-- Translation of `generate_sql_and_insight`: a `cached_call` around
context selection, the generation call, and JSON parsing with the degraded
fallback. -/
def generate_sql_and_insight (hash : String → String) (cache : String → Option SynthResult)
    (parse : String → Option Record) (llm : String → String → String)
    (vecQuery : String → Nat → List String) (g : GraphDB) (top_k : Nat)
    (question : String) : SynthResult × (String → Option SynthResult) :=
  cached_call hash cache ["qa", question]
    (fun _ =>
      let context_snippets := pick_context vecQuery g top_k question
      let response := llm build_system_prompt (build_user_prompt question context_snippets)
      let data :=
        match parse response with
        | some d => d
        | none => degraded_result response
      ⟨data, context_snippets⟩)
    1800

/-- Structural recursion for `pyRange`: the fuel bounds the number of
iterations (for a positive step, `stop - start` always suffices). -/
def pyRangeGo : Nat → Nat → Nat → Nat → List Nat
  | 0, _, _, _ => []
  | fuel + 1, start, stop, step =>
    if start < stop then start :: pyRangeGo fuel (start + step) stop step else []

/-- Python `range(start, stop, step)` for ascending, positive steps. -/
def pyRange (start stop step : Nat) : List Nat :=
  if step = 0 then [] else pyRangeGo (stop - start) start stop step

/-- Python list slice `l[i:j]` for `i ≤ j`. -/
def pySlice {α : Type} (l : List α) (i j : Nat) : List α := (l.drop i).take (j - i)

/-- One document handed to `upsert_docs_to_chroma` (`d["id"]`, `d["text"]`,
`d.get("metadata", {})` with the metadata key possibly absent). -/
structure VectorDoc where
  id : String
  text : String
  metadata : Option Record
deriving DecidableEq

/-- One `collection.upsert` request of parallel slices. -/
structure UpsertBatch where
  ids : List String
  metadatas : List Record
  documents : List String
deriving DecidableEq

/-- Translation of `upsert_docs_to_chroma`: slice the parallel arrays into
batches of 100 and accumulate the count; the issued requests are returned
alongside the count. -/
def upsert_docs_to_chroma (docs : List VectorDoc) : Nat × List UpsertBatch :=
  let ids := docs.map (fun d => d.id)
  let metadatas := docs.map (fun d => d.metadata.getD [])
  let contents := docs.map (fun d => d.text)
  let batch_size := 100
  (pyRange 0 ids.length batch_size).foldl
    (fun acc i =>
      (acc.1 + (pySlice ids i (i + batch_size)).length,
       acc.2 ++ [⟨pySlice ids i (i + batch_size), pySlice metadatas i (i + batch_size),
                  pySlice contents i (i + batch_size)⟩]))
    (0, [])

/-! ## Helper lemmas about the dict model -/

lemma lookup_mem {α : Type} {l : List (String × α)} {k : String} {v : α}
    (h : alookup l k = some v) : (k, v) ∈ l := by
  induction l with
  | nil => simp [alookup] at h
  | cons kv t ih =>
    obtain ⟨k', v'⟩ := kv
    by_cases hk : k' = k
    · subst hk
      simp [alookup] at h
      simp [h]
    · simp [alookup, hk] at h
      exact List.mem_cons_of_mem _ (ih h)

lemma lookup_dictSet_self {α : Type} (d : List (String × α)) (k : String) (v : α) :
    alookup (dictSet d k v) k = some v := by
  induction d with
  | nil => simp [dictSet, alookup]
  | cons kv t ih =>
    obtain ⟨k', v'⟩ := kv
    by_cases h : k' = k
    · subst h
      simp [dictSet, alookup]
    · simp [dictSet, h, alookup, ih]

lemma lookup_dictSet_ne {α : Type} (d : List (String × α)) (k k' : String) (v : α)
    (h : k' ≠ k) : alookup (dictSet d k v) k' = alookup d k' := by
  induction d with
  | nil => simp [dictSet, alookup, Ne.symm h]
  | cons kv t ih =>
    obtain ⟨k₁, v₁⟩ := kv
    by_cases h1 : k₁ = k
    · subst h1
      simp [dictSet, alookup, Ne.symm h]
    · by_cases h2 : k₁ = k'
      · subst h2
        simp [dictSet, h1, alookup]
      · simp [dictSet, h1, alookup, h2, ih]

lemma mem_dictSet {α : Type} {d : List (String × α)} {k : String} {v : α} {x : String × α}
    (h : x ∈ dictSet d k v) : x ∈ d ∨ x = (k, v) := by
  induction d with
  | nil => simpa [dictSet] using h
  | cons kv t ih =>
    obtain ⟨k', v'⟩ := kv
    by_cases h1 : k' = k
    · subst h1
      simp [dictSet] at h
      rcases h with h | h
      · exact Or.inr h
      · exact Or.inl (List.mem_cons_of_mem _ h)
    · simp [dictSet, h1] at h
      rcases h with h | h
      · exact Or.inl (by simp [h])
      · rcases ih h with h' | h'
        · exact Or.inl (List.mem_cons_of_mem _ h')
        · exact Or.inr h'

/-! ## C1: the context-selection fallback policy -/

/-- C1: for every question, `pick_context` returns the vector results
verbatim when the vector query returned at least 3 documents; otherwise it
returns the graph keyword-search results for the question (requesting up to
`top_k` matches) when those are non-empty; and when the vector results
number fewer than 3 and the graph search is empty it returns the original
vector results. -/
theorem pick_context_fallback_policy (vecQuery : String → Nat → List String)
    (g : GraphDB) (top_k : Nat) (q : String) :
    (3 ≤ (vecQuery q top_k).length → pick_context vecQuery g top_k q = vecQuery q top_k) ∧
    ((vecQuery q top_k).length < 3 → retrieve_from_graph g q top_k ≠ [] →
      pick_context vecQuery g top_k q = retrieve_from_graph g q top_k) ∧
    ((vecQuery q top_k).length < 3 → retrieve_from_graph g q top_k = [] →
      pick_context vecQuery g top_k q = vecQuery q top_k) := by
  refine ⟨fun h => ?_, fun h1 h2 => ?_, fun h1 h2 => ?_⟩
  · simp [pick_context, h]
  · simp [pick_context, Nat.not_le.mpr h1, h2]
  · simp [pick_context, Nat.not_le.mpr h1, h2]

/-- Concrete table row used to exercise the graph-backed paths below. -/
def demo_table_row : Record :=
  [("database_name", .vStr "DB"), ("schema_name", .vStr "PUBLIC"),
   ("table_name", .vStr "ORDERS"), ("row_count", .vInt 10)]

/-- Concrete column row used to exercise the graph-backed paths below. -/
def demo_column_row : Record :=
  [("database_name", .vStr "DB"), ("schema_name", .vStr "PUBLIC"),
   ("table_name", .vStr "ORDERS"), ("column_name", .vStr "ORDER_ID"),
   ("data_type", .vStr "NUMBER")]

/-- The graph built from the demo snapshot. -/
def demo_graph : GraphDB :=
  GraphDB.emptyGraph.build_from_metadata [demo_table_row] [demo_column_row]

/-- Witness for C1: all three tiers of the policy at concrete inputs. -/
theorem pick_context_fallback_policy_witness :
    pick_context (fun _ _ => ["a", "b", "c"]) demo_graph 8 "orders" = ["a", "b", "c"] ∧
    pick_context (fun _ _ => ["a"]) demo_graph 8 "orders" =
      retrieve_from_graph demo_graph "orders" 8 ∧
    pick_context (fun _ _ => ["a"]) demo_graph 8 "zzz" = ["a"] :=
  ⟨(pick_context_fallback_policy (fun _ _ => ["a", "b", "c"]) demo_graph 8 "orders").1
      (by decide),
   (pick_context_fallback_policy (fun _ _ => ["a"]) demo_graph 8 "orders").2.1
      (by decide) (by decide),
   (pick_context_fallback_policy (fun _ _ => ["a"]) demo_graph 8 "zzz").2.2
      (by decide) (by decide)⟩

/-! ## C5: the concrete graph-build scenario -/

/-- C5: building the graph from the snapshot with the single table
`DB.PUBLIC.ORDERS` (row_count 10) and single column `ORDER_ID` (type NUMBER)
yields exactly the four expected nodes with their labels and properties and
exactly the three expected edges. -/
theorem build_scenario_concrete :
    GraphDB.emptyGraph.build_from_metadata
      [[("database_name", .vStr "DB"), ("schema_name", .vStr "PUBLIC"),
        ("table_name", .vStr "ORDERS"), ("row_count", .vInt 10)]]
      [[("database_name", .vStr "DB"), ("schema_name", .vStr "PUBLIC"),
        ("table_name", .vStr "ORDERS"), ("column_name", .vStr "ORDER_ID"),
        ("data_type", .vStr "NUMBER")]] =
    ⟨[("DB", [("label", .vStr "Database"), ("name", .vStr "DB")]),
      ("DB.PUBLIC", [("label", .vStr "Schema"), ("name", .vStr "PUBLIC")]),
      ("DB.PUBLIC.ORDERS",
        [("label", .vStr "Table"), ("name", .vStr "ORDERS"), ("row_count", .vInt 10)]),
      ("DB.PUBLIC.ORDERS.ORDER_ID",
        [("label", .vStr "Column"), ("name", .vStr "ORDER_ID"), ("data_type", .vStr "NUMBER")])],
     [("DB", "DB.PUBLIC", [("type", .vStr "CONTAINS")]),
      ("DB.PUBLIC", "DB.PUBLIC.ORDERS", [("type", .vStr "CONTAINS")]),
      ("DB.PUBLIC.ORDERS", "DB.PUBLIC.ORDERS.ORDER_ID", [("type", .vStr "HAS_COLUMN")])]⟩ := by
  decide

/-! ## C6: degraded result on a JSON parse failure -/

/-- C6: when the cache misses and the generation-call response fails to
parse as JSON, `generate_sql_and_insight` does not raise but returns the
degraded dict with the raw response as insight, a null sql, chart type
"table", and the context that was used. -/
theorem synthesize_degrades_on_parse_failure
    (hash : String → String) (cache : String → Option SynthResult)
    (parse : String → Option Record) (llm : String → String → String)
    (vecQuery : String → Nat → List String) (g : GraphDB) (top_k : Nat) (question : String)
    (hmiss : cache (derived_key hash ["qa", question]) = none)
    (hparse : parse (llm build_system_prompt
        (build_user_prompt question (pick_context vecQuery g top_k question))) = none) :
    (generate_sql_and_insight hash cache parse llm vecQuery g top_k question).1 =
      ⟨degraded_result (llm build_system_prompt
          (build_user_prompt question (pick_context vecQuery g top_k question))),
        pick_context vecQuery g top_k question⟩ := by
  simp only [generate_sql_and_insight, cached_call]
  rw [hmiss]
  simp [hparse]

/-- Witness for C6: the scenario-C inputs, a response of "not json". -/
theorem synthesize_degrades_on_parse_failure_witness :
    (generate_sql_and_insight id (fun _ => none) (fun _ => none) (fun _ _ => "not json")
        (fun _ _ => []) GraphDB.emptyGraph 8 "q").1 =
      ⟨degraded_result "not json", []⟩ :=
  synthesize_degrades_on_parse_failure id (fun _ => none) (fun _ => none)
    (fun _ _ => "not json") (fun _ _ => []) GraphDB.emptyGraph 8 "q" rfl rfl

/-! ## C10: the upsert count equals the document count -/

lemma upsert_go_count (ids : List String) (ms : List Record) (cs : List String) :
    ∀ (fuel start c : Nat) (b : List UpsertBatch),
      ids.length - start ≤ 100 * fuel →
      ((pyRangeGo fuel start ids.length 100).foldl
        (fun acc i =>
          (acc.1 + (pySlice ids i (i + 100)).length,
           acc.2 ++ [⟨pySlice ids i (i + 100), pySlice ms i (i + 100),
                      pySlice cs i (i + 100)⟩]))
        (c, b)).1 = c + (ids.length - start) := by
  intro fuel
  induction fuel with
  | zero =>
    intro start c b h
    simp [pyRangeGo]
    omega
  | succ n ih =>
    intro start c b h
    by_cases hlt : start < ids.length
    · have hslice : (pySlice ids start (start + 100)).length = min 100 (ids.length - start) := by
        simp [pySlice]
      simp only [pyRangeGo, if_pos hlt, List.foldl_cons]
      rw [ih (start + 100) _ _ (by omega)]
      rw [hslice]
      omega
    · simp [pyRangeGo, hlt]
      omega

/-- C10: for every document list, the count returned by
`upsert_docs_to_chroma` equals the number of documents passed in, however
the list splits into batches of 100; the empty list returns 0 and issues no
upsert request. -/
theorem upsert_count_eq_docs (docs : List VectorDoc) :
    (upsert_docs_to_chroma docs).1 = docs.length ∧
    (docs = [] → upsert_docs_to_chroma docs = (0, [])) := by
  constructor
  · unfold upsert_docs_to_chroma
    simp only [pyRange]
    rw [if_neg (by omega)]
    rw [upsert_go_count (docs.map (fun d => d.id)) (docs.map (fun d => d.metadata.getD []))
        (docs.map (fun d => d.text)) _ 0 0 [] (by simp; omega)]
    simp
  · intro h
    subst h
    rfl

/-- Witness for C10: the empty list and a singleton. -/
theorem upsert_count_eq_docs_witness :
    upsert_docs_to_chroma [] = (0, []) ∧
    (upsert_docs_to_chroma [⟨"table::DB.PUBLIC.ORDERS", "t", none⟩]).1 = 1 :=
  ⟨(upsert_count_eq_docs []).2 rfl,
   (upsert_count_eq_docs [⟨"table::DB.PUBLIC.ORDERS", "t", none⟩]).1⟩

/-! ## C4: field-name casing in the snapshot -/

/-- C4 counterexample: the snapshot builder persists field names exactly as
they arrive.  With one sub-query returning the same field once lower-case
and once upper-case, both casings survive into the snapshot unchanged, so
field names are not normalized to one canonical casing before downstream
use. -/
theorem extract_mixed_casing_cex :
    (alookup (extract_primary true
        (fun _ => some [[("database_name", .vStr "DB")], [("DATABASE_NAME", .vStr "DB")]]))
        "tables"
      = some [[("database_name", .vStr "DB")], [("DATABASE_NAME", .vStr "DB")]]) ∧
    "database_name" ≠ "DATABASE_NAME" := by
  constructor
  · decide
  · decide

/-- C4 amended: the extraction does not normalize field-name casing — the
JSON-safety pass (the builder's only row transformation) keeps every key
verbatim — and downstream use instead tolerates both case conventions
through the dual-casing lookup `row.get(key, row.get(key.upper()))`, which
retrieves a field stored under either the queried key or its upper-cased
form. -/
theorem extract_keys_verbatim_dual_lookup :
    (∀ records : List Record,
      (json_safe_records records).map (fun r => r.map Prod.fst) =
        records.map (fun r => r.map Prod.fst)) ∧
    (∀ (k : String) (v : PyVal),
      getDual [(k, v)] k = v ∧ getDual [(pyUpper k, v)] k = v) := by
  constructor
  · intro records
    simp [json_safe_records, List.map_map, Function.comp]
  · intro k v
    constructor
    · simp [getDual, alookup]
    · by_cases h : pyUpper k = k
      · simp [getDual, alookup, h]
      · simp [getDual, alookup, h, pyGetD]

/-! ## C2: cache-key derivation -/

/-- Characters contributed by the separator and the remaining parts in a
pipe-join, used to compute `key_raw` at the character level. -/
def tailJoin : List (List Char) → List Char
  | [] => []
  | a :: t => '|' :: (a ++ tailJoin t)

lemma intercalate_go_data (s : String) (as : List String) :
    ∀ acc : String, (String.intercalate.go acc s as).data =
      acc.data ++ (as.map (fun a => s.data ++ a.data)).flatten := by
  induction as with
  | nil => intro acc; simp [String.intercalate.go]
  | cons a t ih =>
    intro acc
    show (String.intercalate.go (acc ++ s ++ a) s t).data = _
    rw [ih]
    simp [String.data_append, List.append_assoc]

lemma tailJoin_eq (xs : List (List Char)) :
    tailJoin xs = (xs.map (fun a => '|' :: a)).flatten := by
  induction xs with
  | nil => rfl
  | cons a t ih => simp [tailJoin, ih]

lemma intercalate_cons (x : List Char) (xs : List (List Char)) :
    List.intercalate ['|'] (x :: xs) = x ++ tailJoin xs := by
  induction xs generalizing x with
  | nil => simp [List.intercalate, List.intersperse, tailJoin]
  | cons y ys ih =>
    rw [tailJoin]
    rw [← ih y]
    simp [List.intercalate, List.intersperse]

lemma key_raw_data (l : List String) :
    (key_raw l).data = List.intercalate ['|'] (l.map String.data) := by
  cases l with
  | nil => rfl
  | cons a t =>
    show (String.intercalate.go a "|" t).data = _
    rw [intercalate_go_data]
    simp only [List.map_cons]
    rw [intercalate_cons, tailJoin_eq]
    have hp : (fun a : String => ("|" : String).data ++ a.data) =
        (fun a : String => '|' :: a.data) := by
      funext a
      rfl
    simp only [List.map_map, hp]
    rfl

lemma key_raw_inj {l1 l2 : List String} (h1 : l1 ≠ []) (h2 : l2 ≠ [])
    (p1 : ∀ x ∈ l1, '|' ∉ x.data) (p2 : ∀ x ∈ l2, '|' ∉ x.data)
    (he : key_raw l1 = key_raw l2) : l1 = l2 := by
  have hdata : (key_raw l1).data = (key_raw l2).data := by rw [he]
  rw [key_raw_data, key_raw_data] at hdata
  have e1 := List.splitOn_intercalate (l1.map String.data) '|'
    (by intro l hl; rcases List.mem_map.mp hl with ⟨x, hx, rfl⟩; exact p1 x hx)
    (by simpa using h1)
  have e2 := List.splitOn_intercalate (l2.map String.data) '|'
    (by intro l hl; rcases List.mem_map.mp hl with ⟨x, hx, rfl⟩; exact p2 x hx)
    (by simpa using h2)
  have hm : l1.map String.data = l2.map String.data := by
    rw [← e1, ← e2, hdata]
  exact List.map_injective_iff.mpr (fun a b hab => String.ext hab) hm

/-- C2 counterexample: with a collision-free digest (here the identity as a
stand-in), the distinct key tuples `("a|b",)` and `("a", "b")` still derive
the same cache key, because the parts are pipe-joined before hashing.  The
claim that distinct tuples never collide under a collision-free digest is
therefore false. -/
theorem cache_key_collision_cex :
    derived_key id ["a|b"] = derived_key id ["a", "b"] ∧
    (["a|b"] : List String) ≠ ["a", "b"] := by
  constructor
  · decide
  · decide

/-- C2 amended: identical key tuples always derive the identical cache key;
and distinct non-empty key tuples whose components contain no pipe
character derive distinct keys, assuming the digest is collision-free.
(Without the pipe-free restriction distinct tuples can collide, because the
tuple is pipe-joined before it is hashed.) -/
theorem cache_key_deterministic_and_injective (hash : String → String)
    (hinj : ∀ a b, hash a = hash b → a = b)
    (k1 k2 : List String) (h1 : k1 ≠ []) (h2 : k2 ≠ [])
    (p1 : ∀ x ∈ k1, '|' ∉ x.data) (p2 : ∀ x ∈ k2, '|' ∉ x.data) :
    (k1 = k2 → derived_key hash k1 = derived_key hash k2) ∧
    (k1 ≠ k2 → derived_key hash k1 ≠ derived_key hash k2) := by
  constructor
  · intro h
    rw [h]
  · intro hne hkey
    exact hne (key_raw_inj h1 h2 p1 p2 (hinj _ _ hkey))

/-- Witness for C2 (amended): the `("qa", question)` tuples the pipeline
actually uses, at two distinct questions. -/
theorem cache_key_deterministic_and_injective_witness :
    derived_key id ["qa", "x"] = derived_key id ["qa", "x"] ∧
    derived_key id ["qa", "x"] ≠ derived_key id ["qa", "y"] :=
  ⟨(cache_key_deterministic_and_injective id (fun _ _ h => h) ["qa", "x"] ["qa", "x"]
      (by decide) (by decide) (by decide) (by decide)).1 rfl,
   (cache_key_deterministic_and_injective id (fun _ _ h => h) ["qa", "x"] ["qa", "y"]
      (by decide) (by decide) (by decide) (by decide)).2 (by decide)⟩

/-! ## C3: rebuilding the graph is idempotent, bad rows are skipped -/

/-- C3: running the graph build twice in sequence on the same snapshot
produces exactly the same node and edge set as running it once — the
rebuild clears and repopulates the graph — and any table row with a falsy
database/schema/table field (or column row additionally with a falsy
column field) is skipped without error, contributing nothing. -/
theorem build_rebuild_idempotent :
    (∀ (g : GraphDB) (tables columns : List Record),
      (g.build_from_metadata tables columns).build_from_metadata tables columns =
        g.build_from_metadata tables columns) ∧
    (∀ (g : GraphDB) (t : Record) (tables columns : List Record),
      pyTruthy (getDual t "database_name") = false ∨
      pyTruthy (getDual t "schema_name") = false ∨
      pyTruthy (getDual t "table_name") = false →
      g.build_from_metadata (t :: tables) columns = g.build_from_metadata tables columns) ∧
    (∀ (g : GraphDB) (c : Record) (tables columns : List Record),
      pyTruthy (getDual c "database_name") = false ∨
      pyTruthy (getDual c "schema_name") = false ∨
      pyTruthy (getDual c "table_name") = false ∨
      pyTruthy (getDual c "column_name") = false →
      g.build_from_metadata tables (c :: columns) = g.build_from_metadata tables columns) := by
  refine ⟨fun g tables columns => rfl,
          fun g t tables columns h => ?_,
          fun g c tables columns h => ?_⟩
  · simp only [GraphDB.build_from_metadata, List.foldl_cons]
    rcases h with h | h | h <;> simp [h]
  · simp only [GraphDB.build_from_metadata, List.foldl_cons]
    rcases h with h | h | h | h <;> simp [h]

/-- Witness for C3: a rebuild over an already-built graph, a table row with
no schema field, and a column row with no column field. -/
theorem build_rebuild_idempotent_witness :
    demo_graph.build_from_metadata [demo_table_row] [demo_column_row] = demo_graph ∧
    GraphDB.emptyGraph.build_from_metadata
        [[("database_name", .vStr "DB"), ("table_name", .vStr "T")]] [] =
      GraphDB.emptyGraph.build_from_metadata [] [] ∧
    GraphDB.emptyGraph.build_from_metadata []
        [[("database_name", .vStr "DB"), ("schema_name", .vStr "S"),
          ("table_name", .vStr "T")]] =
      GraphDB.emptyGraph.build_from_metadata [] [] :=
  ⟨build_rebuild_idempotent.1 GraphDB.emptyGraph [demo_table_row] [demo_column_row],
   build_rebuild_idempotent.2.1 GraphDB.emptyGraph
     [("database_name", .vStr "DB"), ("table_name", .vStr "T")] [] []
     (Or.inr (Or.inl (by decide))),
   build_rebuild_idempotent.2.2 GraphDB.emptyGraph
     [("database_name", .vStr "DB"), ("schema_name", .vStr "S"), ("table_name", .vStr "T")]
     [] [] (Or.inr (Or.inr (Or.inr (by decide))))⟩

/-! ## C7: per-sub-query failure isolation in the primary extraction -/

lemma battery_fold_lookup_not_mem (f : Oracle) (queries : List (String × String)) :
    ∀ (res : List (String × List Record)) (k : String), k ∉ queries.map Prod.fst →
    alookup (queries.foldl
        (fun res kv => dictSet res kv.1 (json_safe_records ((f kv.2).getD []))) res) k
      = alookup res k := by
  induction queries with
  | nil => intro res k _; rfl
  | cons q t ih =>
    intro res k hk
    simp only [List.map_cons, List.mem_cons] at hk
    push_neg at hk
    obtain ⟨h1, h2⟩ := hk
    rw [List.foldl_cons, ih _ k h2, lookup_dictSet_ne _ _ _ _ h1]

lemma battery_fold_lookup_mem (f : Oracle) (queries : List (String × String)) :
    ∀ (res : List (String × List Record)) (k sql : String),
      (queries.map Prod.fst).Nodup → (k, sql) ∈ queries →
      alookup (queries.foldl
          (fun res kv => dictSet res kv.1 (json_safe_records ((f kv.2).getD []))) res) k
        = some (json_safe_records ((f sql).getD [])) := by
  induction queries with
  | nil =>
    intro res k sql _ h
    simp at h
  | cons q t ih =>
    intro res k sql hnd hmem
    obtain ⟨qk, qs⟩ := q
    have hnd2 : (qk :: t.map Prod.fst).Nodup := by simpa using hnd
    have hnd' := List.nodup_cons.mp hnd2
    rw [List.foldl_cons]
    rcases List.mem_cons.mp hmem with heq | htail
    · cases heq
      rw [battery_fold_lookup_not_mem f t _ k hnd'.1, lookup_dictSet_self]
    · exact ih _ k sql hnd'.2 htail

lemma battery_fold_agree (f1 f2 : Oracle) (k : String) (queries : List (String × String)) :
    ∀ (res1 res2 : List (String × List Record)),
      (∀ k', k' ≠ k → alookup res1 k' = alookup res2 k') →
      (∀ q ∈ queries, q.1 ≠ k → f1 q.2 = f2 q.2) →
      ∀ k', k' ≠ k →
      alookup (queries.foldl
          (fun res kv => dictSet res kv.1 (json_safe_records ((f1 kv.2).getD []))) res1) k' =
      alookup (queries.foldl
          (fun res kv => dictSet res kv.1 (json_safe_records ((f2 kv.2).getD []))) res2) k' := by
  induction queries with
  | nil => intro res1 res2 hres _ k' hk'; exact hres k' hk'
  | cons q t ih =>
    intro res1 res2 hres hq k' hk'
    simp only [List.foldl_cons]
    apply ih
    · intro k'' hk''
      by_cases hqk : q.1 = k
      · rw [lookup_dictSet_ne _ _ _ _ (hqk ▸ hk''), lookup_dictSet_ne _ _ _ _ (hqk ▸ hk'')]
        exact hres k'' hk''
      · have hf : f1 q.2 = f2 q.2 := hq q (List.mem_cons_self _ _) hqk
        by_cases hk2 : k'' = q.1
        · subst hk2
          rw [lookup_dictSet_self, lookup_dictSet_self, hf]
        · rw [lookup_dictSet_ne _ _ _ _ hk2, lookup_dictSet_ne _ _ _ _ hk2]
          exact hres k'' hk''
    · intro q' hq' hne
      exact hq q' (List.mem_cons_of_mem _ hq') hne
    · exact hk'

/-- C7: if one battery sub-query fails (its retries exhausted), the
extraction stores the empty list under that sub-query's key, and every
other key of the results is exactly what it would have been had that
sub-query succeeded — a single failure never aborts or perturbs the rest
of the extraction. -/
theorem extract_failure_isolated (databaseConfigured : Bool) (f1 f2 : Oracle)
    (k sql : String) (hmem : (k, sql) ∈ selected_queries databaseConfigured)
    (hfail : f1 sql = none) (hagree : ∀ s, s ≠ sql → f1 s = f2 s) :
    alookup (extract_primary databaseConfigured f1) k = some [] ∧
    (∀ k', k' ≠ k → alookup (extract_primary databaseConfigured f1) k' =
       alookup (extract_primary databaseConfigured f2) k') := by
  have hnodup : ((selected_queries databaseConfigured).map Prod.fst).Nodup := by
    cases databaseConfigured <;> decide
  have hnodup_snd : ((selected_queries databaseConfigured).map Prod.snd).Nodup := by
    cases databaseConfigured <;> decide
  constructor
  · have h := battery_fold_lookup_mem f1 (selected_queries databaseConfigured)
      init_results k sql hnodup hmem
    rw [extract_primary, run_battery]
    simpa [hfail, json_safe_records] using h
  · intro k' hk'
    rw [extract_primary, run_battery, extract_primary, run_battery]
    refine battery_fold_agree f1 f2 k (selected_queries databaseConfigured)
      init_results init_results (fun _ _ => rfl) ?_ k' hk'
    intro q hq1 hne
    refine hagree q.2 (fun hcontra => hne ?_)
    have hqe : q = (k, sql) := List.inj_on_of_nodup_map hnodup_snd hq1 hmem hcontra
    rw [hqe]

/-- Witness for C7: the database-scoped battery with a failing `tables`
sub-query; the `tables` entry degrades to the empty list and the `views`
entry matches the fully-successful run. -/
theorem extract_failure_isolated_witness :
    alookup (extract_primary true
        (fun s => if s = sql_tables then none else some [])) "tables" = some [] ∧
    alookup (extract_primary true
        (fun s => if s = sql_tables then none else some [])) "views" =
      alookup (extract_primary true (fun _ => some [])) "views" :=
  ⟨(extract_failure_isolated true (fun s => if s = sql_tables then none else some [])
      (fun _ => some []) "tables" sql_tables (by simp [selected_queries, QUERIES])
      (by simp) (fun s hs => by simp [hs])).1,
   (extract_failure_isolated true (fun s => if s = sql_tables then none else some [])
      (fun _ => some []) "tables" sql_tables (by simp [selected_queries, QUERIES])
      (by simp) (fun s hs => by simp [hs])).2 "views" (by decide)⟩

/-! ## C8: JSON-safety of every persisted snapshot value -/

/-- A row is JSON-safe when all of its values are. -/
def record_json_safe (r : Record) : Prop := ∀ kv ∈ r, isJsonSafe kv.2 = true

lemma json_safe_safe (v : PyVal) : isJsonSafe (json_safe v) = true := by
  cases v <;> rfl

lemma json_safe_records_safe {records : List Record} :
    ∀ r ∈ json_safe_records records, record_json_safe r := by
  intro r hr kv hkv
  rcases List.mem_map.mp hr with ⟨r0, _, rfl⟩
  rcases List.mem_map.mp hkv with ⟨kv0, _, rfl⟩
  exact json_safe_safe kv0.2

lemma battery_fold_safe (f : Oracle) (queries : List (String × String)) :
    ∀ res, (∀ e ∈ res, ∀ r ∈ e.2, record_json_safe r) →
    ∀ e ∈ (queries.foldl
        (fun res kv => dictSet res kv.1 (json_safe_records ((f kv.2).getD []))) res),
      ∀ r ∈ e.2, record_json_safe r := by
  induction queries with
  | nil => exact fun res h => h
  | cons q t ih =>
    intro res hres
    rw [List.foldl_cons]
    apply ih
    intro e he r hr
    rcases mem_dictSet he with he' | he'
    · exact hres e he' r hr
    · subst he'
      exact json_safe_records_safe r hr

lemma init_results_safe : ∀ e ∈ init_results, ∀ r ∈ e.2, record_json_safe r := by
  intro e he r hr
  simp [init_results] at he
  rcases he with h | h | h | h <;> (rw [h] at hr; simp at hr)

lemma extract_primary_safe (databaseConfigured : Bool) (fetch : Oracle) :
    ∀ e ∈ extract_primary databaseConfigured fetch, ∀ r ∈ e.2, record_json_safe r := by
  rw [extract_primary, run_battery]
  exact battery_fold_safe fetch _ init_results init_results_safe

lemma pyGet_safe {c : Record} (hc : record_json_safe c) (k : String) :
    isJsonSafe (pyGet c k) = true := by
  unfold pyGet
  cases h : alookup c k with
  | none => rfl
  | some v => exact hc (k, v) (lookup_mem h)

lemma pyOr_safe {a b : PyVal} (ha : isJsonSafe a = true) (hb : isJsonSafe b = true) :
    isJsonSafe (pyOr a b) = true := by
  by_cases h : pyTruthy a <;> simp [pyOr, h, ha, hb]

/-- All three components of a grouping key are JSON-safe and all member
rows of the group are JSON-safe. -/
def group_safe (g : (PyVal × PyVal × PyVal) × List Record) : Prop :=
  isJsonSafe g.1.1 = true ∧ isJsonSafe g.1.2.1 = true ∧ isJsonSafe g.1.2.2 = true ∧
  ∀ c ∈ g.2, record_json_safe c

lemma insertGroup_safe {gs : List ((PyVal × PyVal × PyVal) × List Record)}
    {k : PyVal × PyVal × PyVal} {c : Record} (hgs : ∀ g ∈ gs, group_safe g)
    (hk1 : isJsonSafe k.1 = true) (hk2 : isJsonSafe k.2.1 = true)
    (hk3 : isJsonSafe k.2.2 = true) (hc : record_json_safe c) :
    ∀ g ∈ insertGroup gs k c, group_safe g := by
  induction gs with
  | nil =>
    intro g hg
    simp [insertGroup] at hg
    subst hg
    exact ⟨hk1, hk2, hk3, by intro x hx; simp at hx; subst hx; exact hc⟩
  | cons g0 t ih =>
    obtain ⟨k0, cs0⟩ := g0
    intro g hg
    by_cases hkk : k0 = k
    · simp [insertGroup, hkk] at hg
      rcases hg with hg | hg
      · subst hg
        have h0 := hgs (k0, cs0) (List.mem_cons_self _ _)
        refine ⟨hk1, hk2, hk3, ?_⟩
        intro x hx
        rcases List.mem_append.mp hx with hx | hx
        · exact h0.2.2.2 x hx
        · simp at hx; subst hx; exact hc
      · exact hgs g (List.mem_cons_of_mem _ hg)
    · simp [insertGroup, hkk] at hg
      rcases hg with hg | hg
      · subst hg
        exact hgs (k0, cs0) (List.mem_cons_self _ _)
      · exact ih (fun g' hg' => hgs g' (List.mem_cons_of_mem _ hg')) g hg

lemma per_table_fold_safe (cols : List Record) :
    ∀ (gs : List ((PyVal × PyVal × PyVal) × List Record)),
      (∀ g ∈ gs, group_safe g) → (∀ c ∈ cols, record_json_safe c) →
      ∀ g ∈ (cols.foldl
        (fun gs c =>
          if pyTruthy (col_table c) then insertGroup gs (col_db c, col_schema c, col_table c) c
          else gs) gs), group_safe g := by
  induction cols with
  | nil => exact fun gs hgs _ => hgs
  | cons c t ih =>
    intro gs hgs hcols
    rw [List.foldl_cons]
    have hc : record_json_safe c := hcols c (List.mem_cons_self _ _)
    have ht : ∀ x ∈ t, record_json_safe x := fun x hx => hcols x (List.mem_cons_of_mem _ hx)
    by_cases htr : pyTruthy (col_table c)
    · simp only [htr, if_true]
      refine ih _ ?_ ht
      exact insertGroup_safe hgs
        (pyOr_safe (pyGet_safe hc _) (pyGet_safe hc _))
        (pyOr_safe (pyGet_safe hc _) (pyGet_safe hc _))
        (pyOr_safe (pyGet_safe hc _) (pyGet_safe hc _)) hc
    · simp only [htr, if_false]
      exact ih gs hgs ht

lemma per_table_safe {columns : List Record}
    (hcols : ∀ c ∈ columns, record_json_safe c) :
    ∀ g ∈ per_table columns, group_safe g := by
  rw [per_table]
  refine per_table_fold_safe columns [] ?_ hcols
  intro g hg
  simp at hg

lemma dictUpdate_safe {old upd : Record} (ho : record_json_safe old)
    (hu : record_json_safe upd) : record_json_safe (dictUpdate old upd) := by
  induction upd generalizing old with
  | nil => exact ho
  | cons kv t ih =>
    show record_json_safe (dictUpdate (dictSet old kv.1 kv.2) t)
    refine ih ?_ (fun x hx => hu x (List.mem_cons_of_mem _ hx))
    intro x hx
    rcases mem_dictSet hx with hx' | hx'
    · exact ho x hx'
    · subst hx'
      exact hu kv (List.mem_cons_self _ _)

lemma stat_row_safe (f : Oracle) {tkey : PyVal × PyVal × PyVal}
    (h1 : isJsonSafe tkey.1 = true) (h2 : isJsonSafe tkey.2.1 = true)
    (h3 : isJsonSafe tkey.2.2 = true) {col dtype : PyVal}
    (hc : isJsonSafe col = true) (hd : isJsonSafe dtype = true) :
    record_json_safe (stat_row f tkey col dtype) := by
  simp only [stat_row]
  apply dictUpdate_safe
  · intro kv hkv
    simp at hkv
    rcases hkv with h | h | h | h | h <;> (rw [h]; assumption)
  · intro kv hkv
    rcases List.mem_map.mp hkv with ⟨kv0, _, rfl⟩
    exact json_safe_safe kv0.2

lemma stats_inner_fold_safe (f : Oracle) (tk : PyVal × PyVal × PyVal)
    (h1 : isJsonSafe tk.1 = true) (h2 : isJsonSafe tk.2.1 = true)
    (h3 : isJsonSafe tk.2.2 = true) (cols : List Record)
    (hcols : ∀ c ∈ cols, record_json_safe c) :
    ∀ (acc : List Record × List String), (∀ r ∈ acc.1, record_json_safe r) →
    ∀ r ∈ (cols.foldl
        (fun acc c =>
          let col := col_name_of c
          let dtype := col_dtype_of c
          if pyTruthy col && pyTruthy dtype then
            (acc.1 ++ [stat_row f tk col dtype],
             acc.2 ++ [min_max_distinct_for_column tk.1 tk.2.1 tk.2.2 col dtype])
          else acc) acc).1, record_json_safe r := by
  induction cols with
  | nil => exact fun acc hacc => hacc
  | cons c t ih =>
    intro acc hacc
    rw [List.foldl_cons]
    have hc : record_json_safe c := hcols c (List.mem_cons_self _ _)
    have ht : ∀ x ∈ t, record_json_safe x := fun x hx => hcols x (List.mem_cons_of_mem _ hx)
    refine ih ht _ ?_
    by_cases hcd : pyTruthy (col_name_of c) && pyTruthy (col_dtype_of c)
    · simp only [hcd, if_true]
      intro r hr
      rcases List.mem_append.mp hr with hr | hr
      · exact hacc r hr
      · simp at hr
        subst hr
        exact stat_row_safe f h1 h2 h3
          (pyOr_safe (pyGet_safe hc _) (pyGet_safe hc _))
          (pyOr_safe (pyGet_safe hc _) (pyGet_safe hc _))
    · simp only [hcd, if_false]
      exact hacc

lemma stats_phase_safe (f : Oracle) {columns : List Record}
    (hcols : ∀ c ∈ columns, record_json_safe c) :
    ∀ r ∈ (stats_phase f columns).1, record_json_safe r := by
  rw [stats_phase]
  have hgroups := per_table_safe hcols
  have : ∀ (gs : List ((PyVal × PyVal × PyVal) × List Record)),
      (∀ g ∈ gs, group_safe g) →
      ∀ (acc : List Record × List String), (∀ r ∈ acc.1, record_json_safe r) →
      ∀ r ∈ (gs.foldl
        (fun acc g =>
          (g.2.take 5).foldl
            (fun acc c =>
              let col := col_name_of c
              let dtype := col_dtype_of c
              if pyTruthy col && pyTruthy dtype then
                (acc.1 ++ [stat_row f g.1 col dtype],
                 acc.2 ++ [min_max_distinct_for_column g.1.1 g.1.2.1 g.1.2.2 col dtype])
              else acc) acc) acc).1, record_json_safe r := by
    intro gs
    induction gs with
    | nil => exact fun _ acc hacc => hacc
    | cons g t ih =>
      intro hgs acc hacc
      rw [List.foldl_cons]
      have hg := hgs g (List.mem_cons_self _ _)
      refine ih (fun x hx => hgs x (List.mem_cons_of_mem _ hx)) _ ?_
      exact stats_inner_fold_safe f g.1 hg.1 hg.2.1 hg.2.2.1 (g.2.take 5)
        (fun c hcmem => hg.2.2.2 c (List.take_subset _ _ hcmem)) acc hacc
  refine this (per_table columns) hgroups ([], []) ?_
  intro r hr
  simp at hr

/-- C8: the JSON-safety pass converts every decimal to a float and every
temporal value to its ISO-8601 string, and consequently every value in
every row of the snapshot assembled by the extraction (primary results and
derived column stats alike) is JSON-safe. -/
theorem snapshot_values_json_safe (databaseConfigured : Bool) (fetch statFetch : Oracle) :
    (∀ q : Rat, json_safe (.vDecimal q) = .vFloat q) ∧
    (∀ y m d : Nat, json_safe (.vDate y m d) = .vStr (isoDate y m d)) ∧
    (∀ y m d hh mm ss : Nat,
      json_safe (.vDatetime y m d hh mm ss) = .vStr (isoDatetime y m d hh mm ss)) ∧
    (∀ e ∈ extract_metadata_model databaseConfigured fetch statFetch,
      ∀ r ∈ e.2, ∀ kv ∈ r, isJsonSafe kv.2 = true) := by
  refine ⟨fun _ => rfl, fun _ _ _ => rfl, fun _ _ _ _ _ _ => rfl, ?_⟩
  intro e he r hr kv hkv
  have hprimary := extract_primary_safe databaseConfigured fetch
  simp only [extract_metadata_model] at he
  rcases mem_dictSet he with he' | he'
  · exact hprimary e he' r hr kv hkv
  · subst he'
    have hcols : ∀ c ∈ (alookup (extract_primary databaseConfigured fetch) "columns").getD [],
        record_json_safe c := by
      cases h : alookup (extract_primary databaseConfigured fetch) "columns" with
      | none =>
        intro c hcmem
        simp at hcmem
      | some cs =>
        have hsafe := extract_primary_safe databaseConfigured fetch ("columns", cs) (lookup_mem h)
        intro c hcmem
        simp at hcmem
        exact hsafe c hcmem
    exact stats_phase_safe statFetch hcols r hr kv hkv

/-- Witness for C8: a run whose driver returns a decimal and a date; the
persisted tables row carries the converted float. -/
theorem snapshot_values_json_safe_witness : isJsonSafe (PyVal.vFloat 1) = true :=
  (snapshot_values_json_safe true
      (fun _ => some [[("A", .vDecimal 1), ("B", .vDate 2024 1 2)]]) (fun _ => none)).2.2.2
    ("tables", [[("A", .vFloat 1), ("B", .vStr "2024-01-02")]]) (by decide)
    [("A", .vFloat 1), ("B", .vStr "2024-01-02")] (by decide)
    ("A", .vFloat 1) (by decide)

/-! ## C9: per-table sampling bound and per-column failure isolation -/

/-- The sampling test of the stats phase: a column row participates when its
column name and data type are both truthy. -/
def stat_predicate (c : Record) : Bool := pyTruthy (col_name_of c) && pyTruthy (col_dtype_of c)

/-- Number of columns of one table group actually sampled: among the first
5 column rows, those passing `stat_predicate`. -/
def sampled_count (g : (PyVal × PyVal × PyVal) × List Record) : Nat :=
  ((g.2.take 5).filter stat_predicate).length

/-- Total number of sampled columns over all table groups. -/
def total_sampled (columns : List Record) : Nat :=
  ((per_table columns).map sampled_count).sum

lemma stats_inner_fold_eq (f : Oracle) (tk : PyVal × PyVal × PyVal) (cols : List Record) :
    ∀ (acc : List Record × List String),
    (cols.foldl
        (fun acc c =>
          let col := col_name_of c
          let dtype := col_dtype_of c
          if pyTruthy col && pyTruthy dtype then
            (acc.1 ++ [stat_row f tk col dtype],
             acc.2 ++ [min_max_distinct_for_column tk.1 tk.2.1 tk.2.2 col dtype])
          else acc) acc) =
      (acc.1 ++ (cols.filter stat_predicate).map
          (fun c => stat_row f tk (col_name_of c) (col_dtype_of c)),
       acc.2 ++ (cols.filter stat_predicate).map
          (fun c => min_max_distinct_for_column tk.1 tk.2.1 tk.2.2
            (col_name_of c) (col_dtype_of c))) := by
  induction cols with
  | nil => intro acc; simp
  | cons c t ih =>
    intro acc
    rw [List.foldl_cons]
    by_cases h : pyTruthy (col_name_of c) && pyTruthy (col_dtype_of c)
    · simp only [h, if_true]
      rw [ih]
      simp [List.filter_cons, stat_predicate, h]
    · simp only [h, if_false]
      rw [ih]
      simp [List.filter_cons, stat_predicate, h]

lemma stats_outer_fold_eq (f : Oracle) (gs : List ((PyVal × PyVal × PyVal) × List Record)) :
    ∀ (acc : List Record × List String),
    (gs.foldl
        (fun acc g =>
          (g.2.take 5).foldl
            (fun acc c =>
              let col := col_name_of c
              let dtype := col_dtype_of c
              if pyTruthy col && pyTruthy dtype then
                (acc.1 ++ [stat_row f g.1 col dtype],
                 acc.2 ++ [min_max_distinct_for_column g.1.1 g.1.2.1 g.1.2.2 col dtype])
              else acc) acc) acc) =
      (acc.1 ++ (gs.map (fun g => ((g.2.take 5).filter stat_predicate).map
          (fun c => stat_row f g.1 (col_name_of c) (col_dtype_of c)))).flatten,
       acc.2 ++ (gs.map (fun g => ((g.2.take 5).filter stat_predicate).map
          (fun c => min_max_distinct_for_column g.1.1 g.1.2.1 g.1.2.2
            (col_name_of c) (col_dtype_of c)))).flatten) := by
  induction gs with
  | nil => intro acc; simp
  | cons g t ih =>
    intro acc
    rw [List.foldl_cons, stats_inner_fold_eq, ih]
    simp [List.append_assoc]

/-- C9: every table group samples at most its first 5 column rows; exactly
one statistics query is issued per sampled column (the number of issued
queries and the number of appended stat rows both equal the total sampled
count, for every oracle — so a failing query never aborts the phase); and a
column whose statistics query fails still contributes its row, carrying
just the base identification fields. -/
theorem stats_phase_bounds (statFetch : Oracle) (columns : List Record) :
    ((stats_phase statFetch columns).1.length = total_sampled columns) ∧
    ((stats_phase statFetch columns).2.length = total_sampled columns) ∧
    (∀ g ∈ per_table columns, sampled_count g ≤ 5) ∧
    (∀ (tkey : PyVal × PyVal × PyVal) (col dtype : PyVal),
      statFetch (min_max_distinct_for_column tkey.1 tkey.2.1 tkey.2.2 col dtype) = none →
      stat_row statFetch tkey col dtype =
        [("database_name", tkey.1), ("schema_name", tkey.2.1), ("table_name", tkey.2.2),
         ("column_name", col), ("data_type", dtype)]) := by
  refine ⟨?_, ?_, ?_, ?_⟩
  · rw [stats_phase, stats_outer_fold_eq]
    simp only [List.nil_append, List.length_flatten, List.map_map, total_sampled]
    exact congrArg List.sum (congrArg (fun f => List.map f (per_table columns))
      (funext fun g => by simp [sampled_count, Function.comp]))
  · rw [stats_phase, stats_outer_fold_eq]
    simp only [List.nil_append, List.length_flatten, List.map_map, total_sampled]
    exact congrArg List.sum (congrArg (fun f => List.map f (per_table columns))
      (funext fun g => by simp [sampled_count, Function.comp]))
  · intro g _
    calc sampled_count g ≤ (g.2.take 5).length := List.length_filter_le _ _
      _ ≤ 5 := List.length_take_le _ _
  · intro tkey col dtype h
    simp [stat_row, h, dictUpdate]

/-- Column row of a table `t` used by the C9 witness. -/
def w_col (t c : String) : Record :=
  [("table_name", .vStr t), ("column_name", .vStr c), ("data_type", .vStr "NUMBER")]

/-- Seven column rows: six on table T (one more than the sampling bound),
one on table U. -/
def w_columns : List Record :=
  [w_col "T" "C1", w_col "T" "C2", w_col "T" "C3", w_col "T" "C4", w_col "T" "C5",
   w_col "T" "C6", w_col "U" "D1"]

/-- Witness for C9: with an always-failing statistics oracle, the phase
still appends one (base-fields-only) row per sampled column; table T's
group samples at most 5 of its 6 columns. -/
theorem stats_phase_bounds_witness :
    (stats_phase (fun _ => none) w_columns).1.length = total_sampled w_columns ∧
    sampled_count ((PyVal.vNone, PyVal.vNone, PyVal.vStr "T"),
      [w_col "T" "C1", w_col "T" "C2", w_col "T" "C3", w_col "T" "C4", w_col "T" "C5",
       w_col "T" "C6"]) ≤ 5 ∧
    stat_row (fun _ => none) (PyVal.vNone, PyVal.vNone, PyVal.vStr "T")
        (PyVal.vStr "C1") (PyVal.vStr "NUMBER") =
      [("database_name", PyVal.vNone), ("schema_name", PyVal.vNone),
       ("table_name", PyVal.vStr "T"), ("column_name", PyVal.vStr "C1"),
       ("data_type", PyVal.vStr "NUMBER")] :=
  ⟨(stats_phase_bounds (fun _ => none) w_columns).1,
   (stats_phase_bounds (fun _ => none) w_columns).2.2.1 _ (by decide),
   (stats_phase_bounds (fun _ => none) w_columns).2.2.2
     (PyVal.vNone, PyVal.vNone, PyVal.vStr "T") (PyVal.vStr "C1") (PyVal.vStr "NUMBER") rfl⟩
